import Mathlib

/-!
# Verification of the STM32F4xx RCC and Flash peripheral models

Shallow embedding of `hw/misc/stm32f4xx_rcc.c` and the flash-controller
source (`stm32f4xx_flash.c`) of the qemu-st-nucleo-f411 repository.
Registers are 32-bit machine words, embedded as `Nat` with explicit
truncation `% 2^32` at the points where the C code casts.  MMIO `read`
returns the value together with the number of diagnostic events
(`qemu_log_mask` calls) emitted; MMIO `write` returns the new state
together with the diagnostic count.  The GPIO input handler
(`set_irq`) returns `none` when its `g_assert` precondition fails, and
otherwise the new state together with a flag recording that
`qemu_irq_pulse` was invoked on the output line.
-/

namespace Stm32

/-- The C macro `BIT(n) = (1 << n)`. -/
def BIT (n : Nat) : Nat := 1 <<< n

/-- Truncation performed by the C cast `(uint32_t)val64`. -/
def u32 (v : Nat) : Nat := v % 2 ^ 32

/-- All-ones 32-bit word; for `m < 2^32` the C expression `~m` on
`uint32_t` equals `UINT32_MAX ^^^ m`. -/
def UINT32_MAX : Nat := 0xFFFFFFFF

/-! ## Register offsets (from `stm32f4xx_rcc.h`) -/

def RCC_CR : Nat := 0x00
def RCC_PLLCFGR : Nat := 0x04
def RCC_CFGR : Nat := 0x08
def RCC_CIR : Nat := 0x0C
def RCC_AHB1RSTR : Nat := 0x10
def RCC_AHB2RSTR : Nat := 0x14
def RCC_APB1RSTR : Nat := 0x20
def RCC_APB2RSTR : Nat := 0x24
def RCC_AHB1ENR : Nat := 0x30
def RCC_AHB2ENR : Nat := 0x34
def RCC_APB1ENR : Nat := 0x40
def RCC_APB2ENR : Nat := 0x44
def RCC_AHB1LPENR : Nat := 0x50
def RCC_AHB2LPENR : Nat := 0x54
def RCC_APB1LPENR : Nat := 0x60
def RCC_APB2LPENR : Nat := 0x64
def RCC_BDCR : Nat := 0x70
def RCC_CSR : Nat := 0x74
def RCC_SSCGR : Nat := 0x80
def RCC_PLLI2SCFGR : Nat := 0x84
def RCC_DCKCFGR : Nat := 0x8C

/-! ## Interrupt event enumeration (`RccIrqEvents`) -/

def RCC_IRQ_LSI_READY : Nat := 0
def RCC_IRQ_LSE_READY : Nat := 1
def RCC_IRQ_HSI_READY : Nat := 2
def RCC_IRQ_HSE_READY : Nat := 3
def RCC_IRQ_PLL_READY : Nat := 4
def RCC_IRQ_PLLI2S_READY : Nat := 5
def RCC_IRQ_CSS : Nat := 6
def RCC_IRQ_COUNT : Nat := 7

def RCC_CIR_ENABLE_BIT_OFFSET : Nat := 7
def RCC_CIR_CLEAR_BIT_OFFSET : Nat := 16

/-- The mutable register file of `STM32F4xxRccState`. -/
structure RccState where
  rcc_cr : Nat
  rcc_pllcfgr : Nat
  rcc_cfgr : Nat
  rcc_cir : Nat
  rcc_ahb1rstr : Nat
  rcc_ahb2rstr : Nat
  rcc_apb1rstr : Nat
  rcc_apb2rstr : Nat
  rcc_ahb1enr : Nat
  rcc_ahb2enr : Nat
  rcc_apb1enr : Nat
  rcc_apb2enr : Nat
  rcc_ahb1lpenr : Nat
  rcc_ahb2lpenr : Nat
  rcc_apb1lpenr : Nat
  rcc_apb2lpenr : Nat
  rcc_bdcr : Nat
  rcc_csr : Nat
  rcc_sscgr : Nat
  rcc_plli2scfgr : Nat
  rcc_dckcfgr : Nat
  deriving Repr, DecidableEq

/-- `stm32f4xx_rcc_reset`: assigns every register its reset constant. -/
def stm32f4xx_rcc_reset (_s : RccState) : RccState :=
  { rcc_cr := 0x0000FF81
    rcc_pllcfgr := 0x24003010
    rcc_cfgr := 0x00000000
    rcc_cir := 0x00000000
    rcc_ahb1rstr := 0x00000000
    rcc_ahb2rstr := 0x00000000
    rcc_apb1rstr := 0x00000000
    rcc_apb2rstr := 0x00000000
    rcc_ahb1enr := 0x00000000
    rcc_ahb2enr := 0x00000000
    rcc_apb1enr := 0x00000000
    rcc_apb2enr := 0x00000000
    rcc_ahb1lpenr := 0x0061900F
    rcc_ahb2lpenr := 0x00000080
    rcc_apb1lpenr := 0x10E2C80F
    rcc_apb2lpenr := 0x00077930
    rcc_bdcr := 0x00000000
    rcc_csr := 0x0E000000
    rcc_sscgr := 0x00000000
    rcc_plli2scfgr := 0x24003000
    rcc_dckcfgr := 0x00000000 }

/-- `stm32f4xx_rcc_set_irq`: `none` models the `g_assert(irq < RCC_IRQ_COUNT)`
failure; otherwise the result pairs the new state with `true` because
`qemu_irq_pulse(s->irq)` is executed unconditionally at the end. -/
def stm32f4xx_rcc_set_irq (s : RccState) (irq level : Nat) :
    Option (RccState × Bool) :=
  if irq < RCC_IRQ_COUNT then
    let s1 :=
      if level ≠ 0 then
        let irq_enable_bit := BIT (irq + RCC_CIR_ENABLE_BIT_OFFSET)
        if irq = RCC_IRQ_CSS ∨ s.rcc_cir &&& irq_enable_bit ≠ 0 then
          { s with rcc_cir := s.rcc_cir ||| irq }
        else s
      else s
    some (s1, true)
  else none

/-- `stm32f4xx_rcc_read`: value returned on the bus, paired with the number
of `qemu_log_mask` diagnostics emitted (1 only on the default branch). -/
def stm32f4xx_rcc_read (s : RccState) (addr : Nat) : Nat × Nat :=
  if addr = RCC_CR then (s.rcc_cr, 0)
  else if addr = RCC_PLLCFGR then (s.rcc_pllcfgr, 0)
  else if addr = RCC_CFGR then (s.rcc_cfgr, 0)
  else if addr = RCC_CIR then (s.rcc_cir, 0)
  else if addr = RCC_AHB1RSTR then (s.rcc_ahb1rstr, 0)
  else if addr = RCC_AHB2RSTR then (s.rcc_ahb2rstr, 0)
  else if addr = RCC_APB1RSTR then (s.rcc_apb1rstr, 0)
  else if addr = RCC_APB2RSTR then (s.rcc_apb2rstr, 0)
  else if addr = RCC_AHB1ENR then (s.rcc_ahb1enr, 0)
  else if addr = RCC_AHB2ENR then (s.rcc_ahb2enr, 0)
  else if addr = RCC_APB1ENR then (s.rcc_apb1enr, 0)
  else if addr = RCC_APB2ENR then (s.rcc_apb2enr, 0)
  else if addr = RCC_AHB1LPENR then (s.rcc_ahb1lpenr, 0)
  else if addr = RCC_AHB2LPENR then (s.rcc_ahb2lpenr, 0)
  else if addr = RCC_APB1LPENR then (s.rcc_apb1lpenr, 0)
  else if addr = RCC_APB2LPENR then (s.rcc_apb2lpenr, 0)
  else if addr = RCC_BDCR then (s.rcc_bdcr, 0)
  else if addr = RCC_CSR then (s.rcc_csr, 0)
  else if addr = RCC_SSCGR then (s.rcc_sscgr, 0)
  else if addr = RCC_PLLI2SCFGR then (s.rcc_plli2scfgr, 0)
  else if addr = RCC_DCKCFGR then (s.rcc_dckcfgr, 0)
  else (0, 1)

/-- `set_or_clear_if`: set `mask` bits in `value` when `condition` is
nonzero, clear them otherwise (`value & ~mask` on `uint32_t` is
`value &&& (UINT32_MAX ^^^ mask)` for values below `2^32`). -/
def set_or_clear_if (value mask condition : Nat) : Nat :=
  if condition ≠ 0 then value ||| mask
  else value &&& (UINT32_MAX ^^^ mask)

/-- `handle_rcc_cr_write`: mirror each RDY bit from its ON bit. -/
def handle_rcc_cr_write (rcc_cr : Nat) : Nat :=
  let cr1 := set_or_clear_if rcc_cr (BIT 1) (rcc_cr &&& BIT 0)
  let cr2 := set_or_clear_if cr1 (BIT 17) (cr1 &&& BIT 16)
  let cr3 := set_or_clear_if cr2 (BIT 25) (cr2 &&& BIT 24)
  set_or_clear_if cr3 (BIT 27) (cr3 &&& BIT 26)

/-- `handle_rcc_cfgr_write`: copy the switch-selection field (bits 1:0)
into the switch-status field (bits 3:2). -/
def handle_rcc_cfgr_write (rcc_cfgr : Nat) : Nat :=
  let sysclk_switch_status_offset : Nat := 2
  let sysclk_switch_status_bits : Nat := 0x3 <<< sysclk_switch_status_offset
  let sysclk_switch_bits : Nat := 0x3
  let sysclk_switch : Nat := rcc_cfgr &&& sysclk_switch_bits
  (rcc_cfgr &&& (UINT32_MAX ^^^ sysclk_switch_status_bits)) |||
    (sysclk_switch <<< sysclk_switch_status_offset)

/-- `stm32f4xx_rcc_write`: new state paired with the diagnostic count
(1 only on the default branch, which leaves the state unchanged). -/
def stm32f4xx_rcc_write (s : RccState) (addr val64 : Nat) : RccState × Nat :=
  let value := u32 val64
  if addr = RCC_CR then ({ s with rcc_cr := handle_rcc_cr_write value }, 0)
  else if addr = RCC_PLLCFGR then ({ s with rcc_pllcfgr := value }, 0)
  else if addr = RCC_CFGR then ({ s with rcc_cfgr := handle_rcc_cfgr_write value }, 0)
  else if addr = RCC_CIR then ({ s with rcc_cir := value }, 0)
  else if addr = RCC_AHB1RSTR then ({ s with rcc_ahb1rstr := value }, 0)
  else if addr = RCC_AHB2RSTR then ({ s with rcc_ahb2rstr := value }, 0)
  else if addr = RCC_APB1RSTR then ({ s with rcc_apb1rstr := value }, 0)
  else if addr = RCC_APB2RSTR then ({ s with rcc_apb2rstr := value }, 0)
  else if addr = RCC_AHB1ENR then ({ s with rcc_ahb1enr := value }, 0)
  else if addr = RCC_AHB2ENR then ({ s with rcc_ahb2enr := value }, 0)
  else if addr = RCC_APB1ENR then ({ s with rcc_apb1enr := value }, 0)
  else if addr = RCC_APB2ENR then ({ s with rcc_apb2enr := value }, 0)
  else if addr = RCC_AHB1LPENR then ({ s with rcc_ahb1lpenr := value }, 0)
  else if addr = RCC_AHB2LPENR then ({ s with rcc_ahb2lpenr := value }, 0)
  else if addr = RCC_APB1LPENR then ({ s with rcc_apb1lpenr := value }, 0)
  else if addr = RCC_APB2LPENR then ({ s with rcc_apb2lpenr := value }, 0)
  else if addr = RCC_BDCR then ({ s with rcc_bdcr := value }, 0)
  else if addr = RCC_CSR then ({ s with rcc_csr := value }, 0)
  else if addr = RCC_SSCGR then ({ s with rcc_sscgr := value }, 0)
  else if addr = RCC_PLLI2SCFGR then ({ s with rcc_plli2scfgr := value }, 0)
  else if addr = RCC_DCKCFGR then ({ s with rcc_dckcfgr := value }, 0)
  else (s, 1)

/-- The RCC offsets handled by a non-default switch case. -/
def rccDefinedOffset (addr : Nat) : Bool :=
  addr = RCC_CR ∨ addr = RCC_PLLCFGR ∨ addr = RCC_CFGR ∨ addr = RCC_CIR ∨
  addr = RCC_AHB1RSTR ∨ addr = RCC_AHB2RSTR ∨ addr = RCC_APB1RSTR ∨
  addr = RCC_APB2RSTR ∨ addr = RCC_AHB1ENR ∨ addr = RCC_AHB2ENR ∨
  addr = RCC_APB1ENR ∨ addr = RCC_APB2ENR ∨ addr = RCC_AHB1LPENR ∨
  addr = RCC_AHB2LPENR ∨ addr = RCC_APB1LPENR ∨ addr = RCC_APB2LPENR ∨
  addr = RCC_BDCR ∨ addr = RCC_CSR ∨ addr = RCC_SSCGR ∨
  addr = RCC_PLLI2SCFGR ∨ addr = RCC_DCKCFGR

/-! ## Flash controller (from `stm32f4xx_flash.c` / `stm32f4xx_flash.h`) -/

def FLASH_ACR : Nat := 0x00
def FLASH_KEYR : Nat := 0x04
def FLASH_OPTKEYR : Nat := 0x08
def FLASH_SR : Nat := 0x0C
def FLASH_CR : Nat := 0x10
def FLASH_OPTCR : Nat := 0x14
def FLASH_OPTCR1 : Nat := 0x18

/-- The mutable register file of `STM32F4xxFlashState`. -/
structure FlashState where
  flash_acr : Nat
  flash_keyr : Nat
  flash_optkeyr : Nat
  flash_sr : Nat
  flash_cr : Nat
  flash_optcr : Nat
  flash_optcr1 : Nat
  deriving Repr, DecidableEq

/-- `stm32f4xx_flash_reset`. -/
def stm32f4xx_flash_reset (_s : FlashState) : FlashState :=
  { flash_acr := 0x00000000
    flash_keyr := 0x00000000
    flash_optkeyr := 0x00000000
    flash_sr := 0x00000000
    flash_cr := 0x80000000
    flash_optcr := 0x0FFFAAED
    flash_optcr1 := 0x0FFF0000 }

/-- `stm32f4xx_flash_set_irq`: the body (apart from the trace) is a single
unconditional `qemu_irq_pulse(s->irq)`; state is unchanged. -/
def stm32f4xx_flash_set_irq (s : FlashState) (_irq _level : Nat) :
    FlashState × Bool :=
  (s, true)

/-- `stm32f4xx_flash_read`: note that the `FLASH_CR` case returns
`s->flash_sr`, exactly as in the source. -/
def stm32f4xx_flash_read (s : FlashState) (addr : Nat) : Nat × Nat :=
  if addr = FLASH_ACR then (s.flash_acr, 0)
  else if addr = FLASH_KEYR then (s.flash_keyr, 0)
  else if addr = FLASH_OPTKEYR then (s.flash_optkeyr, 0)
  else if addr = FLASH_SR then (s.flash_sr, 0)
  else if addr = FLASH_CR then (s.flash_sr, 0)
  else if addr = FLASH_OPTCR then (s.flash_optcr, 0)
  else if addr = FLASH_OPTCR1 then (s.flash_optcr1, 0)
  else (0, 1)

/-- `stm32f4xx_flash_write`. -/
def stm32f4xx_flash_write (s : FlashState) (addr val64 : Nat) :
    FlashState × Nat :=
  let value := u32 val64
  if addr = FLASH_ACR then ({ s with flash_acr := value }, 0)
  else if addr = FLASH_KEYR then ({ s with flash_keyr := value }, 0)
  else if addr = FLASH_OPTKEYR then ({ s with flash_optkeyr := value }, 0)
  else if addr = FLASH_SR then ({ s with flash_sr := value }, 0)
  else if addr = FLASH_CR then ({ s with flash_cr := value }, 0)
  else if addr = FLASH_OPTCR then ({ s with flash_optcr := value }, 0)
  else if addr = FLASH_OPTCR1 then ({ s with flash_optcr1 := value }, 0)
  else (s, 1)

/-- The flash offsets handled by a non-default switch case. -/
def flashDefinedOffset (addr : Nat) : Bool :=
  addr = FLASH_ACR ∨ addr = FLASH_KEYR ∨ addr = FLASH_OPTKEYR ∨
  addr = FLASH_SR ∨ addr = FLASH_CR ∨ addr = FLASH_OPTCR ∨
  addr = FLASH_OPTCR1

def zRcc : RccState := ⟨0, 0, 0, 0, 0, 0, 0, 0, 0, 0, 0, 0, 0, 0, 0, 0, 0, 0, 0, 0, 0⟩

def zFlash : FlashState := ⟨0, 0, 0, 0, 0, 0, 0⟩

/-- Each RDY bit of RCC_CR agrees with its paired ON bit. -/
def RccCrConsistent (cr : Nat) : Prop :=
  cr.testBit 1 = cr.testBit 0 ∧ cr.testBit 17 = cr.testBit 16 ∧
  cr.testBit 25 = cr.testBit 24 ∧ cr.testBit 27 = cr.testBit 26

/-- The switch-status field of RCC_CFGR (bits 3:2) agrees with the
switch-selection field (bits 1:0). -/
def RccCfgrConsistent (cfgr : Nat) : Prop :=
  cfgr.testBit 2 = cfgr.testBit 0 ∧ cfgr.testBit 3 = cfgr.testBit 1

instance (cr : Nat) : Decidable (RccCrConsistent cr) := by
  unfold RccCrConsistent; infer_instance

instance (cfgr : Nat) : Decidable (RccCfgrConsistent cfgr) := by
  unfold RccCfgrConsistent; infer_instance

/-- Derived-bit invariant of the whole RCC register file. -/
def RccInvariant (s : RccState) : Prop :=
  RccCrConsistent s.rcc_cr ∧ RccCfgrConsistent s.rcc_cfgr

instance (s : RccState) : Decidable (RccInvariant s) := by
  unfold RccInvariant; infer_instance

/-! ## Helper lemmas -/

theorem BIT_eq_two_pow (n : Nat) : BIT n = 2 ^ n := by
  simp [BIT, Nat.shiftLeft_eq]

theorem UINT32_MAX_eq : UINT32_MAX = 2 ^ 32 - 1 := by norm_num [UINT32_MAX]

theorem testBit_uint32_max {i : Nat} (hi : i < 32) : UINT32_MAX.testBit i = true := by
  rw [UINT32_MAX_eq, Nat.testBit_two_pow_sub_one]
  simp [hi]

theorem testBit_uint32_max_all (i : Nat) : UINT32_MAX.testBit i = decide (i < 32) := by
  rw [UINT32_MAX_eq, Nat.testBit_two_pow_sub_one]

theorem testBit_three (i : Nat) : (3:Nat).testBit i = decide (i < 2) := by
  rw [show (3:Nat) = 2 ^ 2 - 1 from by norm_num, Nat.testBit_two_pow_sub_one]

theorem land_bit_ne_zero (v k : Nat) : (v &&& BIT k ≠ 0) ↔ v.testBit k = true := by
  rw [BIT_eq_two_pow, Nat.and_two_pow]
  cases h : v.testBit k <;> simp [h]

theorem decide_land_bit (v k : Nat) : decide (v &&& BIT k ≠ 0) = v.testBit k := by
  cases h : v.testBit k <;> simp [land_bit_ne_zero, h]

theorem land_bit_eq_zero (v k : Nat) : (v &&& BIT k = 0) ↔ v.testBit k = false := by
  rw [BIT_eq_two_pow, Nat.and_two_pow]
  cases h : v.testBit k <;> simp [h]

theorem decide_land_bit_zero (v k : Nat) : decide (v &&& BIT k = 0) = !v.testBit k := by
  cases h : v.testBit k <;> simp [land_bit_eq_zero, h]

theorem u32_lt (v : Nat) : u32 v < 2 ^ 32 := Nat.mod_lt _ (by norm_num)

theorem u32_eq_of_lt {v : Nat} (hv : v < 2 ^ 32) : u32 v = v := Nat.mod_eq_of_lt hv

theorem testBit_set_or_clear_if (v k c : Nat) {i : Nat} (hi : i < 32) :
    (set_or_clear_if v (BIT k) c).testBit i =
      if k = i then decide (c ≠ 0) else v.testBit i := by
  unfold set_or_clear_if
  by_cases hc : c ≠ 0 <;> by_cases hk : k = i <;>
    simp [hc, hk, BIT_eq_two_pow, Nat.testBit_lor, Nat.testBit_land,
      Nat.testBit_xor, Nat.testBit_two_pow, testBit_uint32_max hi,
      -Nat.testBit_zero]

theorem handle_rcc_cr_write_pairs (v : Nat) :
    ((handle_rcc_cr_write v).testBit 0 = v.testBit 0) ∧
    ((handle_rcc_cr_write v).testBit 1 = v.testBit 0) ∧
    ((handle_rcc_cr_write v).testBit 16 = v.testBit 16) ∧
    ((handle_rcc_cr_write v).testBit 17 = v.testBit 16) ∧
    ((handle_rcc_cr_write v).testBit 24 = v.testBit 24) ∧
    ((handle_rcc_cr_write v).testBit 25 = v.testBit 24) ∧
    ((handle_rcc_cr_write v).testBit 26 = v.testBit 26) ∧
    ((handle_rcc_cr_write v).testBit 27 = v.testBit 26) := by
  unfold handle_rcc_cr_write
  simp [testBit_set_or_clear_if, decide_land_bit, decide_land_bit_zero, -Nat.testBit_zero]

theorem handle_rcc_cfgr_write_testBit (v : Nat) (hv : v < 2 ^ 32) (i : Nat) :
    (handle_rcc_cfgr_write v).testBit i =
      if i = 2 then v.testBit 0 else if i = 3 then v.testBit 1 else v.testBit i := by
  unfold handle_rcc_cfgr_write
  simp only [Nat.testBit_lor, Nat.testBit_land, Nat.testBit_xor,
    Nat.testBit_shiftLeft, testBit_uint32_max_all, testBit_three]
  by_cases h2 : i = 2
  · subst h2; simp
  by_cases h3 : i = 3
  · subst h3; simp
  by_cases hlo : 2 ≤ i
  · have hsub : ¬(i - 2 < 2) := by omega
    by_cases hi32 : i < 32
    · simp [h2, h3, hlo, hsub, hi32]
    · have : v.testBit i = false :=
        Nat.testBit_eq_false_of_lt (lt_of_lt_of_le hv (Nat.pow_le_pow_right (by norm_num) (by omega)))
      simp [h2, h3, hlo, hsub, hi32, this]
  · have hi32 : i < 32 := by omega
    simp [h2, h3, hlo, hi32]

theorem crConsistent_handle (w : Nat) : RccCrConsistent (handle_rcc_cr_write w) := by
  obtain ⟨h0, h1, h16, h17, h24, h25, h26, h27⟩ := handle_rcc_cr_write_pairs w
  exact ⟨h1.trans h0.symm, h17.trans h16.symm, h25.trans h24.symm, h27.trans h26.symm⟩

theorem cfgrConsistent_handle (w : Nat) (hw : w < 2 ^ 32) :
    RccCfgrConsistent (handle_rcc_cfgr_write w) := by
  constructor
  · rw [handle_rcc_cfgr_write_testBit w hw 2, handle_rcc_cfgr_write_testBit w hw 0]
    simp
  · rw [handle_rcc_cfgr_write_testBit w hw 3, handle_rcc_cfgr_write_testBit w hw 1]
    simp

theorem invariant_of_eq (s t : RccState) (hcr : t.rcc_cr = s.rcc_cr)
    (hcfgr : t.rcc_cfgr = s.rcc_cfgr) (hs : RccInvariant s) : RccInvariant t := by
  unfold RccInvariant at *
  rw [hcr, hcfgr]
  exact hs

/-! ## Claim theorems -/

/-- Claim C1 (code bug, evaluated at the failing input): the handler executes
`rcc_cir |= irq`, ORing the event index instead of latching the flag bit
`BIT(irq)`.  Raising the clock-security event (index 6, which the gate always
accepts) leaves bit 6 of `rcc_cir` clear and sets bits 1 and 2 instead, and an
enabled LSI-ready event (index 0) latches nothing at all. -/
theorem rcc_set_irq_latches_index_not_flag_bit :
    stm32f4xx_rcc_set_irq (stm32f4xx_rcc_reset zRcc) RCC_IRQ_CSS 1 =
      some ({ stm32f4xx_rcc_reset zRcc with rcc_cir := 6 }, true) ∧
    Nat.testBit 6 RCC_IRQ_CSS = false ∧
    stm32f4xx_rcc_set_irq { stm32f4xx_rcc_reset zRcc with rcc_cir := BIT 7 }
        RCC_IRQ_LSI_READY 1 =
      some ({ stm32f4xx_rcc_reset zRcc with rcc_cir := BIT 7 }, true) := by
  decide

/-- Claim C2 counterexample: writing 1 to the control register (FLASH_CR,
offset 0x10) and then reading the status register (FLASH_SR, offset 0x0C)
returns 0 (the stored status value), not 1 as the claim states. -/
theorem flash_write_cr_read_sr_counterexample :
    ¬((stm32f4xx_flash_read
        (stm32f4xx_flash_write (stm32f4xx_flash_reset zFlash) FLASH_CR 1).1 FLASH_SR).1 = 1) := by
  decide

/-- Claim C2 amended: the alias direction is reversed with respect to the
claim: a read at FLASH_CR returns the status register value, so writing X to
FLASH_SR and then reading FLASH_CR returns X, while reading FLASH_SR returns
the stored status value, unaffected by writes to FLASH_CR. -/
theorem flash_sr_cr_alias_reversed (f : FlashState) (X : Nat) (hX : X < 2 ^ 32) :
    (stm32f4xx_flash_read (stm32f4xx_flash_write f FLASH_SR X).1 FLASH_CR).1 = X ∧
    (stm32f4xx_flash_read (stm32f4xx_flash_write f FLASH_CR X).1 FLASH_SR).1 = f.flash_sr := by
  refine ⟨?_, rfl⟩
  show u32 X = X
  exact u32_eq_of_lt hX

/-- Witness for claim C2 at a concrete state and value. -/
theorem flash_sr_cr_alias_reversed_witness :
    (0xAB : Nat) < 2 ^ 32 ∧
    (stm32f4xx_flash_read (stm32f4xx_flash_write zFlash FLASH_SR 0xAB).1 FLASH_CR).1 = 0xAB :=
  ⟨by norm_num, (flash_sr_cr_alias_reversed zFlash 0xAB (by norm_num)).1⟩

/-- Claim C3 counterexample: after flash reset the stored `flash_cr` is
0x80000000, but a read at offset FLASH_CR returns 0. -/
theorem flash_reset_read_cr_counterexample :
    (stm32f4xx_flash_reset zFlash).flash_cr = 0x80000000 ∧
    ¬((stm32f4xx_flash_read (stm32f4xx_flash_reset zFlash) FLASH_CR).1 = 0x80000000) := by
  decide

/-- Claim C3 amended: immediately after reset, every defined register of both
peripherals reads back its declared reset constant, except offset FLASH_CR,
whose read path returns the status register value (0 after reset) although the
stored `flash_cr` holds its declared reset constant 0x80000000. -/
theorem reset_read_values_amended (s : RccState) (f : FlashState) :
    (stm32f4xx_rcc_read (stm32f4xx_rcc_reset s) RCC_CR).1 = 0x0000FF81 ∧
    (stm32f4xx_rcc_read (stm32f4xx_rcc_reset s) RCC_PLLCFGR).1 = 0x24003010 ∧
    (stm32f4xx_rcc_read (stm32f4xx_rcc_reset s) RCC_CFGR).1 = 0x00000000 ∧
    (stm32f4xx_rcc_read (stm32f4xx_rcc_reset s) RCC_CIR).1 = 0x00000000 ∧
    (stm32f4xx_rcc_read (stm32f4xx_rcc_reset s) RCC_AHB1RSTR).1 = 0x00000000 ∧
    (stm32f4xx_rcc_read (stm32f4xx_rcc_reset s) RCC_AHB2RSTR).1 = 0x00000000 ∧
    (stm32f4xx_rcc_read (stm32f4xx_rcc_reset s) RCC_APB1RSTR).1 = 0x00000000 ∧
    (stm32f4xx_rcc_read (stm32f4xx_rcc_reset s) RCC_APB2RSTR).1 = 0x00000000 ∧
    (stm32f4xx_rcc_read (stm32f4xx_rcc_reset s) RCC_AHB1ENR).1 = 0x00000000 ∧
    (stm32f4xx_rcc_read (stm32f4xx_rcc_reset s) RCC_AHB2ENR).1 = 0x00000000 ∧
    (stm32f4xx_rcc_read (stm32f4xx_rcc_reset s) RCC_APB1ENR).1 = 0x00000000 ∧
    (stm32f4xx_rcc_read (stm32f4xx_rcc_reset s) RCC_APB2ENR).1 = 0x00000000 ∧
    (stm32f4xx_rcc_read (stm32f4xx_rcc_reset s) RCC_AHB1LPENR).1 = 0x0061900F ∧
    (stm32f4xx_rcc_read (stm32f4xx_rcc_reset s) RCC_AHB2LPENR).1 = 0x00000080 ∧
    (stm32f4xx_rcc_read (stm32f4xx_rcc_reset s) RCC_APB1LPENR).1 = 0x10E2C80F ∧
    (stm32f4xx_rcc_read (stm32f4xx_rcc_reset s) RCC_APB2LPENR).1 = 0x00077930 ∧
    (stm32f4xx_rcc_read (stm32f4xx_rcc_reset s) RCC_BDCR).1 = 0x00000000 ∧
    (stm32f4xx_rcc_read (stm32f4xx_rcc_reset s) RCC_CSR).1 = 0x0E000000 ∧
    (stm32f4xx_rcc_read (stm32f4xx_rcc_reset s) RCC_SSCGR).1 = 0x00000000 ∧
    (stm32f4xx_rcc_read (stm32f4xx_rcc_reset s) RCC_PLLI2SCFGR).1 = 0x24003000 ∧
    (stm32f4xx_rcc_read (stm32f4xx_rcc_reset s) RCC_DCKCFGR).1 = 0x00000000 ∧
    (stm32f4xx_flash_read (stm32f4xx_flash_reset f) FLASH_ACR).1 = 0x00000000 ∧
    (stm32f4xx_flash_read (stm32f4xx_flash_reset f) FLASH_KEYR).1 = 0x00000000 ∧
    (stm32f4xx_flash_read (stm32f4xx_flash_reset f) FLASH_OPTKEYR).1 = 0x00000000 ∧
    (stm32f4xx_flash_read (stm32f4xx_flash_reset f) FLASH_SR).1 = 0x00000000 ∧
    (stm32f4xx_flash_read (stm32f4xx_flash_reset f) FLASH_OPTCR).1 = 0x0FFFAAED ∧
    (stm32f4xx_flash_read (stm32f4xx_flash_reset f) FLASH_OPTCR1).1 = 0x0FFF0000 ∧
    (stm32f4xx_flash_reset f).flash_cr = 0x80000000 ∧
    (stm32f4xx_flash_read (stm32f4xx_flash_reset f) FLASH_CR).1 = 0x00000000 :=
  ⟨rfl, rfl, rfl, rfl, rfl, rfl, rfl, rfl, rfl, rfl, rfl, rfl, rfl, rfl, rfl, rfl,
   rfl, rfl, rfl, rfl, rfl, rfl, rfl, rfl, rfl, rfl, rfl, rfl, rfl⟩

/-- Claim C4 counterexample: the RCC_CR reset constant 0x0000FF81 is not a
fixed point of `handle_rcc_cr_write`, which sets HSIRDY (bit 1) because HSION
(bit 0) is set in the reset constant. -/
theorem rcc_cr_reset_not_fixed_point :
    ¬(handle_rcc_cr_write ((stm32f4xx_rcc_reset zRcc).rcc_cr) =
        (stm32f4xx_rcc_reset zRcc).rcc_cr) := by
  decide

/-- Claim C4 amended: reset is idempotent and the RCC_CFGR reset constant is a
fixed point of its derivation rule, but re-running `handle_rcc_cr_write` on the
RCC_CR reset constant additionally sets bit 1 (HSIRDY), giving 0x0000FF83; that
corrected value is itself a fixed point. -/
theorem rcc_reset_idempotent_and_derivation (s : RccState) :
    stm32f4xx_rcc_reset (stm32f4xx_rcc_reset s) = stm32f4xx_rcc_reset s ∧
    handle_rcc_cfgr_write (stm32f4xx_rcc_reset s).rcc_cfgr =
      (stm32f4xx_rcc_reset s).rcc_cfgr ∧
    handle_rcc_cr_write (stm32f4xx_rcc_reset s).rcc_cr =
      (stm32f4xx_rcc_reset s).rcc_cr ||| BIT 1 ∧
    handle_rcc_cr_write ((stm32f4xx_rcc_reset s).rcc_cr ||| BIT 1) =
      (stm32f4xx_rcc_reset s).rcc_cr ||| BIT 1 :=
  ⟨rfl,
   show handle_rcc_cfgr_write 0 = 0 from by decide,
   show handle_rcc_cr_write 0x0000FF81 = 0x0000FF81 ||| BIT 1 from by decide,
   show handle_rcc_cr_write (0x0000FF81 ||| BIT 1) = 0x0000FF81 ||| BIT 1 from by decide⟩

/-- Claim C5: for every value written to RCC_CR, a subsequent read of RCC_CR
observes each paired ready bit equal to its enable bit, for all four pairs:
bit 1 = bit 0, bit 17 = bit 16, bit 25 = bit 24 and bit 27 = bit 26. -/
theorem rcc_cr_write_read_ready_mirrors_enable (s : RccState) (v : Nat) :
    ((stm32f4xx_rcc_read (stm32f4xx_rcc_write s RCC_CR v).1 RCC_CR).1.testBit 1 =
       (stm32f4xx_rcc_read (stm32f4xx_rcc_write s RCC_CR v).1 RCC_CR).1.testBit 0) ∧
    ((stm32f4xx_rcc_read (stm32f4xx_rcc_write s RCC_CR v).1 RCC_CR).1.testBit 17 =
       (stm32f4xx_rcc_read (stm32f4xx_rcc_write s RCC_CR v).1 RCC_CR).1.testBit 16) ∧
    ((stm32f4xx_rcc_read (stm32f4xx_rcc_write s RCC_CR v).1 RCC_CR).1.testBit 25 =
       (stm32f4xx_rcc_read (stm32f4xx_rcc_write s RCC_CR v).1 RCC_CR).1.testBit 24) ∧
    ((stm32f4xx_rcc_read (stm32f4xx_rcc_write s RCC_CR v).1 RCC_CR).1.testBit 27 =
       (stm32f4xx_rcc_read (stm32f4xx_rcc_write s RCC_CR v).1 RCC_CR).1.testBit 26) := by
  have hrd : stm32f4xx_rcc_read (stm32f4xx_rcc_write s RCC_CR v).1 RCC_CR =
      ((stm32f4xx_rcc_write s RCC_CR v).1.rcc_cr, 0) := rfl
  have hwr : (stm32f4xx_rcc_write s RCC_CR v).1.rcc_cr = handle_rcc_cr_write (u32 v) := rfl
  rw [hrd, hwr]
  obtain ⟨h0, h1, h16, h17, h24, h25, h26, h27⟩ := handle_rcc_cr_write_pairs (u32 v)
  exact ⟨h1.trans h0.symm, h17.trans h16.symm, h25.trans h24.symm, h27.trans h26.symm⟩

/-- Claim C6: for every 32-bit value written to RCC_CFGR, a subsequent read
returns a value whose switch-status field (bits 3:2) equals the written low
2 bits, with every bit other than bits 3:2 unchanged from the written value. -/
theorem rcc_cfgr_write_read_switch_status (s : RccState) (v : Nat) (hv : v < 2 ^ 32) :
    (((stm32f4xx_rcc_read (stm32f4xx_rcc_write s RCC_CFGR v).1 RCC_CFGR).1 >>> 2) &&& 3 =
        v &&& 3) ∧
    (∀ i, i ≠ 2 → i ≠ 3 →
      (stm32f4xx_rcc_read (stm32f4xx_rcc_write s RCC_CFGR v).1 RCC_CFGR).1.testBit i =
        v.testBit i) := by
  have hrd : stm32f4xx_rcc_read (stm32f4xx_rcc_write s RCC_CFGR v).1 RCC_CFGR =
      ((stm32f4xx_rcc_write s RCC_CFGR v).1.rcc_cfgr, 0) := rfl
  have hwr : (stm32f4xx_rcc_write s RCC_CFGR v).1.rcc_cfgr = handle_rcc_cfgr_write v := by
    show handle_rcc_cfgr_write (u32 v) = handle_rcc_cfgr_write v
    rw [u32_eq_of_lt hv]
  rw [hrd, hwr]
  refine ⟨Nat.eq_of_testBit_eq fun j => ?_, fun i hi2 hi3 => ?_⟩
  · rw [Nat.testBit_land, Nat.testBit_land, Nat.testBit_shiftRight, testBit_three]
    obtain _ | _ | j := j
    · simp [handle_rcc_cfgr_write_testBit v hv, -Nat.testBit_zero]
    · simp [handle_rcc_cfgr_write_testBit v hv, -Nat.testBit_zero]
    · have hj : ¬(j + 1 + 1 < 2) := by omega
      simp [hj]
  · rw [handle_rcc_cfgr_write_testBit v hv i, if_neg hi2, if_neg hi3]

/-- Witness for claim C6 at a concrete state and value. -/
theorem rcc_cfgr_write_read_switch_status_witness :
    (0xFFFFFFF1 : Nat) < 2 ^ 32 ∧
    ((stm32f4xx_rcc_read (stm32f4xx_rcc_write zRcc RCC_CFGR 0xFFFFFFF1).1 RCC_CFGR).1 >>> 2) &&&
        3 = (0xFFFFFFF1 : Nat) &&& 3 :=
  ⟨by norm_num, (rcc_cfgr_write_read_switch_status zRcc 0xFFFFFFF1 (by norm_num)).1⟩

/-- Claim C7: for any in-window offset not backed by a defined register, in
either peripheral, a read returns 0 with exactly one diagnostic event, and a
write emits exactly one diagnostic event and leaves the register file
unchanged. -/
theorem undefined_offset_read_write_diag (s : RccState) (f : FlashState)
    (a b v w : Nat) (ha : a < 0x400) (hnda : rccDefinedOffset a = false)
    (hb : b < 0x400) (hndb : flashDefinedOffset b = false) :
    stm32f4xx_rcc_read s a = (0, 1) ∧ stm32f4xx_rcc_write s a v = (s, 1) ∧
    stm32f4xx_flash_read f b = (0, 1) ∧ stm32f4xx_flash_write f b w = (f, 1) := by
  simp only [rccDefinedOffset, decide_eq_false_iff_not, not_or] at hnda
  simp only [flashDefinedOffset, decide_eq_false_iff_not, not_or] at hndb
  obtain ⟨a1, a2, a3, a4, a5, a6, a7, a8, a9, a10, a11, a12, a13, a14, a15, a16,
    a17, a18, a19, a20, a21⟩ := hnda
  obtain ⟨b1, b2, b3, b4, b5, b6, b7⟩ := hndb
  refine ⟨?_, ?_, ?_, ?_⟩ <;>
    simp [stm32f4xx_rcc_read, stm32f4xx_rcc_write, stm32f4xx_flash_read,
      stm32f4xx_flash_write, a1, a2, a3, a4, a5, a6, a7, a8, a9, a10, a11, a12,
      a13, a14, a15, a16, a17, a18, a19, a20, a21, b1, b2, b3, b4, b5, b6, b7]

/-- Witness for claim C7 at concrete undefined offsets. -/
theorem undefined_offset_read_write_diag_witness :
    ((0x18 : Nat) < 0x400 ∧ rccDefinedOffset 0x18 = false ∧
      (0x1C : Nat) < 0x400 ∧ flashDefinedOffset 0x1C = false) ∧
    (stm32f4xx_rcc_read zRcc 0x18 = (0, 1) ∧ stm32f4xx_rcc_write zRcc 0x18 5 = (zRcc, 1) ∧
     stm32f4xx_flash_read zFlash 0x1C = (0, 1) ∧
     stm32f4xx_flash_write zFlash 0x1C 5 = (zFlash, 1)) :=
  ⟨by refine ⟨by norm_num, by decide, by norm_num, by decide⟩,
   undefined_offset_read_write_diag zRcc zFlash 0x18 0x1C 5 5 (by norm_num) (by decide)
     (by norm_num) (by decide)⟩

/-- Claim C8: every raised interrupt event (index in range, level nonzero)
pulses the single output interrupt line, whether or not the event was latched
into `rcc_cir`. -/
theorem rcc_set_irq_always_pulses (s : RccState) (irq level : Nat)
    (hirq : irq < RCC_IRQ_COUNT) (hlevel : level ≠ 0) :
    (stm32f4xx_rcc_set_irq s irq level).map Prod.snd = some true := by
  unfold stm32f4xx_rcc_set_irq
  rw [if_pos hirq]
  rfl

/-- Witness for claim C8 at a concrete state and event. -/
theorem rcc_set_irq_always_pulses_witness :
    3 < RCC_IRQ_COUNT ∧ (1 : Nat) ≠ 0 ∧
      (stm32f4xx_rcc_set_irq zRcc 3 1).map Prod.snd = some true :=
  ⟨by norm_num [RCC_IRQ_COUNT], by norm_num,
    rcc_set_irq_always_pulses zRcc 3 1 (by norm_num [RCC_IRQ_COUNT]) (by norm_num)⟩

/-- Claim C9: the derived-bit invariant (each ready bit mirrors its enable bit
in `rcc_cr`, and bits 3:2 of `rcc_cfgr` mirror its bits 1:0) is preserved by an
MMIO write to any offset and by any `set_irq` call, and a write to RCC_CR or
RCC_CFGR establishes the respective consistency unconditionally. -/
theorem rcc_mmio_invariant_preserved (s : RccState) (addr v irq level : Nat) :
    (RccInvariant s → RccInvariant (stm32f4xx_rcc_write s addr v).1) ∧
    (RccInvariant s → ∀ s1 p, stm32f4xx_rcc_set_irq s irq level = some (s1, p) →
      RccInvariant s1) ∧
    RccCrConsistent ((stm32f4xx_rcc_write s RCC_CR v).1).rcc_cr ∧
    RccCfgrConsistent ((stm32f4xx_rcc_write s RCC_CFGR v).1).rcc_cfgr := by
  refine ⟨?_, ?_, ?_, ?_⟩
  · intro hs
    rcases em (addr = RCC_CR) with h1 | h1
    · subst h1
      have e : (stm32f4xx_rcc_write s RCC_CR v).1 = { s with rcc_cr := handle_rcc_cr_write (u32 v) } := by
        simp [stm32f4xx_rcc_write, RCC_CR, RCC_PLLCFGR, RCC_CFGR, RCC_CIR, RCC_AHB1RSTR, RCC_AHB2RSTR, RCC_APB1RSTR, RCC_APB2RSTR, RCC_AHB1ENR, RCC_AHB2ENR, RCC_APB1ENR, RCC_APB2ENR, RCC_AHB1LPENR, RCC_AHB2LPENR, RCC_APB1LPENR, RCC_APB2LPENR, RCC_BDCR, RCC_CSR, RCC_SSCGR, RCC_PLLI2SCFGR, RCC_DCKCFGR]
      rw [e]
      exact ⟨crConsistent_handle _, hs.2⟩
    rcases em (addr = RCC_PLLCFGR) with h2 | h2
    · subst h2
      have e : (stm32f4xx_rcc_write s RCC_PLLCFGR v).1 = { s with rcc_pllcfgr := u32 v } := by
        simp [stm32f4xx_rcc_write, RCC_CR, RCC_PLLCFGR, RCC_CFGR, RCC_CIR, RCC_AHB1RSTR, RCC_AHB2RSTR, RCC_APB1RSTR, RCC_APB2RSTR, RCC_AHB1ENR, RCC_AHB2ENR, RCC_APB1ENR, RCC_APB2ENR, RCC_AHB1LPENR, RCC_AHB2LPENR, RCC_APB1LPENR, RCC_APB2LPENR, RCC_BDCR, RCC_CSR, RCC_SSCGR, RCC_PLLI2SCFGR, RCC_DCKCFGR]
      rw [e]
      exact hs
    rcases em (addr = RCC_CFGR) with h3 | h3
    · subst h3
      have e : (stm32f4xx_rcc_write s RCC_CFGR v).1 = { s with rcc_cfgr := handle_rcc_cfgr_write (u32 v) } := by
        simp [stm32f4xx_rcc_write, RCC_CR, RCC_PLLCFGR, RCC_CFGR, RCC_CIR, RCC_AHB1RSTR, RCC_AHB2RSTR, RCC_APB1RSTR, RCC_APB2RSTR, RCC_AHB1ENR, RCC_AHB2ENR, RCC_APB1ENR, RCC_APB2ENR, RCC_AHB1LPENR, RCC_AHB2LPENR, RCC_APB1LPENR, RCC_APB2LPENR, RCC_BDCR, RCC_CSR, RCC_SSCGR, RCC_PLLI2SCFGR, RCC_DCKCFGR]
      rw [e]
      exact ⟨hs.1, cfgrConsistent_handle _ (u32_lt v)⟩
    rcases em (addr = RCC_CIR) with h4 | h4
    · subst h4
      have e : (stm32f4xx_rcc_write s RCC_CIR v).1 = { s with rcc_cir := u32 v } := by
        simp [stm32f4xx_rcc_write, RCC_CR, RCC_PLLCFGR, RCC_CFGR, RCC_CIR, RCC_AHB1RSTR, RCC_AHB2RSTR, RCC_APB1RSTR, RCC_APB2RSTR, RCC_AHB1ENR, RCC_AHB2ENR, RCC_APB1ENR, RCC_APB2ENR, RCC_AHB1LPENR, RCC_AHB2LPENR, RCC_APB1LPENR, RCC_APB2LPENR, RCC_BDCR, RCC_CSR, RCC_SSCGR, RCC_PLLI2SCFGR, RCC_DCKCFGR]
      rw [e]
      exact hs
    rcases em (addr = RCC_AHB1RSTR) with h5 | h5
    · subst h5
      have e : (stm32f4xx_rcc_write s RCC_AHB1RSTR v).1 = { s with rcc_ahb1rstr := u32 v } := by
        simp [stm32f4xx_rcc_write, RCC_CR, RCC_PLLCFGR, RCC_CFGR, RCC_CIR, RCC_AHB1RSTR, RCC_AHB2RSTR, RCC_APB1RSTR, RCC_APB2RSTR, RCC_AHB1ENR, RCC_AHB2ENR, RCC_APB1ENR, RCC_APB2ENR, RCC_AHB1LPENR, RCC_AHB2LPENR, RCC_APB1LPENR, RCC_APB2LPENR, RCC_BDCR, RCC_CSR, RCC_SSCGR, RCC_PLLI2SCFGR, RCC_DCKCFGR]
      rw [e]
      exact hs
    rcases em (addr = RCC_AHB2RSTR) with h6 | h6
    · subst h6
      have e : (stm32f4xx_rcc_write s RCC_AHB2RSTR v).1 = { s with rcc_ahb2rstr := u32 v } := by
        simp [stm32f4xx_rcc_write, RCC_CR, RCC_PLLCFGR, RCC_CFGR, RCC_CIR, RCC_AHB1RSTR, RCC_AHB2RSTR, RCC_APB1RSTR, RCC_APB2RSTR, RCC_AHB1ENR, RCC_AHB2ENR, RCC_APB1ENR, RCC_APB2ENR, RCC_AHB1LPENR, RCC_AHB2LPENR, RCC_APB1LPENR, RCC_APB2LPENR, RCC_BDCR, RCC_CSR, RCC_SSCGR, RCC_PLLI2SCFGR, RCC_DCKCFGR]
      rw [e]
      exact hs
    rcases em (addr = RCC_APB1RSTR) with h7 | h7
    · subst h7
      have e : (stm32f4xx_rcc_write s RCC_APB1RSTR v).1 = { s with rcc_apb1rstr := u32 v } := by
        simp [stm32f4xx_rcc_write, RCC_CR, RCC_PLLCFGR, RCC_CFGR, RCC_CIR, RCC_AHB1RSTR, RCC_AHB2RSTR, RCC_APB1RSTR, RCC_APB2RSTR, RCC_AHB1ENR, RCC_AHB2ENR, RCC_APB1ENR, RCC_APB2ENR, RCC_AHB1LPENR, RCC_AHB2LPENR, RCC_APB1LPENR, RCC_APB2LPENR, RCC_BDCR, RCC_CSR, RCC_SSCGR, RCC_PLLI2SCFGR, RCC_DCKCFGR]
      rw [e]
      exact hs
    rcases em (addr = RCC_APB2RSTR) with h8 | h8
    · subst h8
      have e : (stm32f4xx_rcc_write s RCC_APB2RSTR v).1 = { s with rcc_apb2rstr := u32 v } := by
        simp [stm32f4xx_rcc_write, RCC_CR, RCC_PLLCFGR, RCC_CFGR, RCC_CIR, RCC_AHB1RSTR, RCC_AHB2RSTR, RCC_APB1RSTR, RCC_APB2RSTR, RCC_AHB1ENR, RCC_AHB2ENR, RCC_APB1ENR, RCC_APB2ENR, RCC_AHB1LPENR, RCC_AHB2LPENR, RCC_APB1LPENR, RCC_APB2LPENR, RCC_BDCR, RCC_CSR, RCC_SSCGR, RCC_PLLI2SCFGR, RCC_DCKCFGR]
      rw [e]
      exact hs
    rcases em (addr = RCC_AHB1ENR) with h9 | h9
    · subst h9
      have e : (stm32f4xx_rcc_write s RCC_AHB1ENR v).1 = { s with rcc_ahb1enr := u32 v } := by
        simp [stm32f4xx_rcc_write, RCC_CR, RCC_PLLCFGR, RCC_CFGR, RCC_CIR, RCC_AHB1RSTR, RCC_AHB2RSTR, RCC_APB1RSTR, RCC_APB2RSTR, RCC_AHB1ENR, RCC_AHB2ENR, RCC_APB1ENR, RCC_APB2ENR, RCC_AHB1LPENR, RCC_AHB2LPENR, RCC_APB1LPENR, RCC_APB2LPENR, RCC_BDCR, RCC_CSR, RCC_SSCGR, RCC_PLLI2SCFGR, RCC_DCKCFGR]
      rw [e]
      exact hs
    rcases em (addr = RCC_AHB2ENR) with h10 | h10
    · subst h10
      have e : (stm32f4xx_rcc_write s RCC_AHB2ENR v).1 = { s with rcc_ahb2enr := u32 v } := by
        simp [stm32f4xx_rcc_write, RCC_CR, RCC_PLLCFGR, RCC_CFGR, RCC_CIR, RCC_AHB1RSTR, RCC_AHB2RSTR, RCC_APB1RSTR, RCC_APB2RSTR, RCC_AHB1ENR, RCC_AHB2ENR, RCC_APB1ENR, RCC_APB2ENR, RCC_AHB1LPENR, RCC_AHB2LPENR, RCC_APB1LPENR, RCC_APB2LPENR, RCC_BDCR, RCC_CSR, RCC_SSCGR, RCC_PLLI2SCFGR, RCC_DCKCFGR]
      rw [e]
      exact hs
    rcases em (addr = RCC_APB1ENR) with h11 | h11
    · subst h11
      have e : (stm32f4xx_rcc_write s RCC_APB1ENR v).1 = { s with rcc_apb1enr := u32 v } := by
        simp [stm32f4xx_rcc_write, RCC_CR, RCC_PLLCFGR, RCC_CFGR, RCC_CIR, RCC_AHB1RSTR, RCC_AHB2RSTR, RCC_APB1RSTR, RCC_APB2RSTR, RCC_AHB1ENR, RCC_AHB2ENR, RCC_APB1ENR, RCC_APB2ENR, RCC_AHB1LPENR, RCC_AHB2LPENR, RCC_APB1LPENR, RCC_APB2LPENR, RCC_BDCR, RCC_CSR, RCC_SSCGR, RCC_PLLI2SCFGR, RCC_DCKCFGR]
      rw [e]
      exact hs
    rcases em (addr = RCC_APB2ENR) with h12 | h12
    · subst h12
      have e : (stm32f4xx_rcc_write s RCC_APB2ENR v).1 = { s with rcc_apb2enr := u32 v } := by
        simp [stm32f4xx_rcc_write, RCC_CR, RCC_PLLCFGR, RCC_CFGR, RCC_CIR, RCC_AHB1RSTR, RCC_AHB2RSTR, RCC_APB1RSTR, RCC_APB2RSTR, RCC_AHB1ENR, RCC_AHB2ENR, RCC_APB1ENR, RCC_APB2ENR, RCC_AHB1LPENR, RCC_AHB2LPENR, RCC_APB1LPENR, RCC_APB2LPENR, RCC_BDCR, RCC_CSR, RCC_SSCGR, RCC_PLLI2SCFGR, RCC_DCKCFGR]
      rw [e]
      exact hs
    rcases em (addr = RCC_AHB1LPENR) with h13 | h13
    · subst h13
      have e : (stm32f4xx_rcc_write s RCC_AHB1LPENR v).1 = { s with rcc_ahb1lpenr := u32 v } := by
        simp [stm32f4xx_rcc_write, RCC_CR, RCC_PLLCFGR, RCC_CFGR, RCC_CIR, RCC_AHB1RSTR, RCC_AHB2RSTR, RCC_APB1RSTR, RCC_APB2RSTR, RCC_AHB1ENR, RCC_AHB2ENR, RCC_APB1ENR, RCC_APB2ENR, RCC_AHB1LPENR, RCC_AHB2LPENR, RCC_APB1LPENR, RCC_APB2LPENR, RCC_BDCR, RCC_CSR, RCC_SSCGR, RCC_PLLI2SCFGR, RCC_DCKCFGR]
      rw [e]
      exact hs
    rcases em (addr = RCC_AHB2LPENR) with h14 | h14
    · subst h14
      have e : (stm32f4xx_rcc_write s RCC_AHB2LPENR v).1 = { s with rcc_ahb2lpenr := u32 v } := by
        simp [stm32f4xx_rcc_write, RCC_CR, RCC_PLLCFGR, RCC_CFGR, RCC_CIR, RCC_AHB1RSTR, RCC_AHB2RSTR, RCC_APB1RSTR, RCC_APB2RSTR, RCC_AHB1ENR, RCC_AHB2ENR, RCC_APB1ENR, RCC_APB2ENR, RCC_AHB1LPENR, RCC_AHB2LPENR, RCC_APB1LPENR, RCC_APB2LPENR, RCC_BDCR, RCC_CSR, RCC_SSCGR, RCC_PLLI2SCFGR, RCC_DCKCFGR]
      rw [e]
      exact hs
    rcases em (addr = RCC_APB1LPENR) with h15 | h15
    · subst h15
      have e : (stm32f4xx_rcc_write s RCC_APB1LPENR v).1 = { s with rcc_apb1lpenr := u32 v } := by
        simp [stm32f4xx_rcc_write, RCC_CR, RCC_PLLCFGR, RCC_CFGR, RCC_CIR, RCC_AHB1RSTR, RCC_AHB2RSTR, RCC_APB1RSTR, RCC_APB2RSTR, RCC_AHB1ENR, RCC_AHB2ENR, RCC_APB1ENR, RCC_APB2ENR, RCC_AHB1LPENR, RCC_AHB2LPENR, RCC_APB1LPENR, RCC_APB2LPENR, RCC_BDCR, RCC_CSR, RCC_SSCGR, RCC_PLLI2SCFGR, RCC_DCKCFGR]
      rw [e]
      exact hs
    rcases em (addr = RCC_APB2LPENR) with h16 | h16
    · subst h16
      have e : (stm32f4xx_rcc_write s RCC_APB2LPENR v).1 = { s with rcc_apb2lpenr := u32 v } := by
        simp [stm32f4xx_rcc_write, RCC_CR, RCC_PLLCFGR, RCC_CFGR, RCC_CIR, RCC_AHB1RSTR, RCC_AHB2RSTR, RCC_APB1RSTR, RCC_APB2RSTR, RCC_AHB1ENR, RCC_AHB2ENR, RCC_APB1ENR, RCC_APB2ENR, RCC_AHB1LPENR, RCC_AHB2LPENR, RCC_APB1LPENR, RCC_APB2LPENR, RCC_BDCR, RCC_CSR, RCC_SSCGR, RCC_PLLI2SCFGR, RCC_DCKCFGR]
      rw [e]
      exact hs
    rcases em (addr = RCC_BDCR) with h17 | h17
    · subst h17
      have e : (stm32f4xx_rcc_write s RCC_BDCR v).1 = { s with rcc_bdcr := u32 v } := by
        simp [stm32f4xx_rcc_write, RCC_CR, RCC_PLLCFGR, RCC_CFGR, RCC_CIR, RCC_AHB1RSTR, RCC_AHB2RSTR, RCC_APB1RSTR, RCC_APB2RSTR, RCC_AHB1ENR, RCC_AHB2ENR, RCC_APB1ENR, RCC_APB2ENR, RCC_AHB1LPENR, RCC_AHB2LPENR, RCC_APB1LPENR, RCC_APB2LPENR, RCC_BDCR, RCC_CSR, RCC_SSCGR, RCC_PLLI2SCFGR, RCC_DCKCFGR]
      rw [e]
      exact hs
    rcases em (addr = RCC_CSR) with h18 | h18
    · subst h18
      have e : (stm32f4xx_rcc_write s RCC_CSR v).1 = { s with rcc_csr := u32 v } := by
        simp [stm32f4xx_rcc_write, RCC_CR, RCC_PLLCFGR, RCC_CFGR, RCC_CIR, RCC_AHB1RSTR, RCC_AHB2RSTR, RCC_APB1RSTR, RCC_APB2RSTR, RCC_AHB1ENR, RCC_AHB2ENR, RCC_APB1ENR, RCC_APB2ENR, RCC_AHB1LPENR, RCC_AHB2LPENR, RCC_APB1LPENR, RCC_APB2LPENR, RCC_BDCR, RCC_CSR, RCC_SSCGR, RCC_PLLI2SCFGR, RCC_DCKCFGR]
      rw [e]
      exact hs
    rcases em (addr = RCC_SSCGR) with h19 | h19
    · subst h19
      have e : (stm32f4xx_rcc_write s RCC_SSCGR v).1 = { s with rcc_sscgr := u32 v } := by
        simp [stm32f4xx_rcc_write, RCC_CR, RCC_PLLCFGR, RCC_CFGR, RCC_CIR, RCC_AHB1RSTR, RCC_AHB2RSTR, RCC_APB1RSTR, RCC_APB2RSTR, RCC_AHB1ENR, RCC_AHB2ENR, RCC_APB1ENR, RCC_APB2ENR, RCC_AHB1LPENR, RCC_AHB2LPENR, RCC_APB1LPENR, RCC_APB2LPENR, RCC_BDCR, RCC_CSR, RCC_SSCGR, RCC_PLLI2SCFGR, RCC_DCKCFGR]
      rw [e]
      exact hs
    rcases em (addr = RCC_PLLI2SCFGR) with h20 | h20
    · subst h20
      have e : (stm32f4xx_rcc_write s RCC_PLLI2SCFGR v).1 = { s with rcc_plli2scfgr := u32 v } := by
        simp [stm32f4xx_rcc_write, RCC_CR, RCC_PLLCFGR, RCC_CFGR, RCC_CIR, RCC_AHB1RSTR, RCC_AHB2RSTR, RCC_APB1RSTR, RCC_APB2RSTR, RCC_AHB1ENR, RCC_AHB2ENR, RCC_APB1ENR, RCC_APB2ENR, RCC_AHB1LPENR, RCC_AHB2LPENR, RCC_APB1LPENR, RCC_APB2LPENR, RCC_BDCR, RCC_CSR, RCC_SSCGR, RCC_PLLI2SCFGR, RCC_DCKCFGR]
      rw [e]
      exact hs
    rcases em (addr = RCC_DCKCFGR) with h21 | h21
    · subst h21
      have e : (stm32f4xx_rcc_write s RCC_DCKCFGR v).1 = { s with rcc_dckcfgr := u32 v } := by
        simp [stm32f4xx_rcc_write, RCC_CR, RCC_PLLCFGR, RCC_CFGR, RCC_CIR, RCC_AHB1RSTR, RCC_AHB2RSTR, RCC_APB1RSTR, RCC_APB2RSTR, RCC_AHB1ENR, RCC_AHB2ENR, RCC_APB1ENR, RCC_APB2ENR, RCC_AHB1LPENR, RCC_AHB2LPENR, RCC_APB1LPENR, RCC_APB2LPENR, RCC_BDCR, RCC_CSR, RCC_SSCGR, RCC_PLLI2SCFGR, RCC_DCKCFGR]
      rw [e]
      exact hs
    have e : (stm32f4xx_rcc_write s addr v).1 = s := by
      simp [stm32f4xx_rcc_write, h1, h2, h3, h4, h5, h6, h7, h8, h9, h10, h11, h12, h13, h14, h15, h16, h17, h18, h19, h20, h21]
    rw [e]
    exact hs
  · intro hs s1 p heq
    unfold stm32f4xx_rcc_set_irq at heq
    by_cases hi : irq < RCC_IRQ_COUNT
    · rw [if_pos hi] at heq
      injection heq with h
      injection h with h1 h2
      subst h1
      refine invariant_of_eq s _ ?_ ?_ hs <;>
        simp [apply_ite RccState.rcc_cr, apply_ite RccState.rcc_cfgr]
    · rw [if_neg hi] at heq
      exact Option.noConfusion heq
  · have e : (stm32f4xx_rcc_write s RCC_CR v).1 =
        { s with rcc_cr := handle_rcc_cr_write (u32 v) } := by
      simp [stm32f4xx_rcc_write]
    rw [e]
    exact crConsistent_handle (u32 v)
  · have e : (stm32f4xx_rcc_write s RCC_CFGR v).1 =
        { s with rcc_cfgr := handle_rcc_cfgr_write (u32 v) } := by
      simp [stm32f4xx_rcc_write, RCC_CFGR, RCC_CR, RCC_PLLCFGR]
    rw [e]
    exact cfgrConsistent_handle (u32 v) (u32_lt v)

/-- Witness for claim C9 at concrete states, offsets and values. -/
theorem rcc_mmio_invariant_preserved_witness :
    RccInvariant zRcc ∧
    RccInvariant (stm32f4xx_rcc_write zRcc RCC_PLLCFGR 7).1 ∧
    RccInvariant { zRcc with rcc_cir := 6 } ∧
    RccCrConsistent ((stm32f4xx_rcc_write zRcc RCC_CR 0xFFFFFFFF).1).rcc_cr ∧
    RccCfgrConsistent ((stm32f4xx_rcc_write zRcc RCC_CFGR 0xB).1).rcc_cfgr :=
  ⟨by decide,
   (rcc_mmio_invariant_preserved zRcc RCC_PLLCFGR 7 6 1).1 (by decide),
   (rcc_mmio_invariant_preserved zRcc RCC_PLLCFGR 7 6 1).2.1 (by decide)
     { zRcc with rcc_cir := 6 } true (by decide),
   (rcc_mmio_invariant_preserved zRcc RCC_CR 0xFFFFFFFF 6 1).2.2.1,
   (rcc_mmio_invariant_preserved zRcc RCC_CFGR 0xB 6 1).2.2.2⟩

/-- Claim C10: two flash-controller states that differ only in the stored
`flash_cr` yield identical MMIO read results at every offset, so a value
written to the control register is never observable through any read. -/
theorem flash_cr_unobservable (f g : FlashState)
    (h1 : f.flash_acr = g.flash_acr) (h2 : f.flash_keyr = g.flash_keyr)
    (h3 : f.flash_optkeyr = g.flash_optkeyr) (h4 : f.flash_sr = g.flash_sr)
    (h5 : f.flash_optcr = g.flash_optcr) (h6 : f.flash_optcr1 = g.flash_optcr1)
    (addr : Nat) :
    stm32f4xx_flash_read f addr = stm32f4xx_flash_read g addr := by
  unfold stm32f4xx_flash_read
  split_ifs <;> simp [h1, h2, h3, h4, h5, h6]

/-- Witness for claim C10 at concrete states and offset. -/
theorem flash_cr_unobservable_witness :
    stm32f4xx_flash_read zFlash FLASH_CR =
      stm32f4xx_flash_read { zFlash with flash_cr := 42 } FLASH_CR :=
  flash_cr_unobservable zFlash { zFlash with flash_cr := 42 } rfl rfl rfl rfl rfl rfl FLASH_CR

end Stm32
